import Mathlib

/-!
# g-2048 display layer: frame draw-queue and texture cache

Shallow embedding of `src/game/display.h` and `src/game/display.cpp`
(`Display::Impl`).

* The object state of `Display::Impl` is the structure `Impl`.
* Every call into GLFW / OpenGL is recorded, in program order, in a trace of
  `Call` values; the outcomes the backend and the PNG decoder hand back to the
  program (`glfwInit`, `glfwCreateWindow`, `lodepng::decode`, the framebuffer
  size, whether a backend call faults) are the fields of `Env`.
* Member functions are computations `M α` over a `World` (object state and
  trace) that either return, or stop with a `Failure` together with the world
  at the point of the stop: a C++ exception thrown by the code
  (`runtime_error`) or a fault raised by the backend at a call.
* `float` values are rationals: `0.5f` is `1/2`, `0.83f` is `83/100`, `0.9f`
  is `9/10`. `unsigned` is `Nat` reduced modulo `2^32` where it is incremented.

The input and clock queries (`IsKeyPressed`, `Closed`, `ProcessEvents`,
`GetTime`) touch neither the queue nor the texture map and are left out.

Identifiers the source spells in two ways are read as the one entity they
denote: the enumerator declared `kkTile_1` is the `TileType::kTile_1` of
`InitTextures`; `WinMessage` in the constructor's initialiser list is the
member `WinMessage_`; `WinTexture` in `Render` is the member `WinTexture_`;
`LoadTeTileTextures_xture("data/8.png")` is `LoadTexture("data/8.png")`.
-/

namespace G2048

/-! ## Data model -/

/-- The enumeration `TileType` of display.h, in declaration order. -/
inductive TileType
  | kkTile_1
  | kTile_2
  | kTile_4
  | kTile_8
  | kTile_16
  | kTile_32
  | kTile_64
  | kTile_128
  | kTile_256
  | kTile_512
  | kTile_1024
  | kTile_2048
  deriving DecidableEq, Repr

/-- The symbolic constants of GLFW and OpenGL that the program passes. -/
inductive GLenum
  | GLFW_CONTEXT_VERSION_MAJOR
  | GLFW_CONTEXT_VERSION_MINOR
  | GLFW_SAMPLES
  | GL_CULL_FACE
  | GL_DEPTH_TEST
  | GL_SRC_ALPHA
  | GL_ONE_MINUS_SRC_ALPHA
  | GL_BLEND
  | GL_ALPHA_TEST
  | GL_TEXTURE_2D
  | GL_MULTISAMPLE
  | GL_TEXTURE_MIN_FILTER
  | GL_TEXTURE_MAG_FILTER
  | GL_NEAREST
  | GL_RGBA
  | GL_UNSIGNED_BYTE
  | GL_PROJECTION
  | GL_MODELVIEW
  | GL_QUADS
  deriving DecidableEq, Repr

/-- One call into the windowing / graphics backend, with its arguments. -/
inductive Call
  | glfwInit
  | glfwWindowHint (hint : GLenum) (value : Int)
  | glfwCreateWindow (width height : Int) (title : String)
  | glfwTerminate
  | glfwMakeContextCurrent (window : Option Nat)
  | glfwSwapInterval (interval : Int)
  | glfwDestroyWindow (window : Option Nat)
  | glDisable (cap : GLenum)
  | glEnable (cap : GLenum)
  | glBlendFunc (sfactor dfactor : GLenum)
  | glBindTexture (target : GLenum) (texture : Nat)
  | glTexParameterf (target pname param : GLenum)
  | glTexImage2D (target : GLenum) (width height : Nat) (pixels : List Nat)
  | glfwGetFramebufferSize (window : Option Nat)
  | glViewport (x y width height : Int)
  | glClear (colorBit depthBit : Bool)
  | glClearColor (r g b a : ℚ)
  | glMatrixMode (mode : GLenum)
  | glLoadIdentity
  | glOrtho (left right bottom top near far : ℚ)
  | glColor4f (r g b a : ℚ)
  | glBegin (mode : GLenum)
  | glTexCoord2f (s t : ℚ)
  | glVertex2f (x y : ℚ)
  | glEnd
  | glfwSwapBuffers (window : Option Nat)
  deriving DecidableEq, Repr

/-- What `lodepng::decode` hands back: the error code (0 is success), the
pixels and the dimensions. -/
structure DecodeResult where
  error : Nat
  image : List Nat
  width : Nat
  height : Nat
  deriving DecidableEq, Repr

/-- The outcomes of the external collaborators. `faults history call` says
whether the backend faults when `call` is issued after `history`. -/
structure Env where
  glfwInit : Bool
  glfwCreateWindow : Option Nat
  decode : String → DecodeResult
  lodepng_error_text : Nat → String
  framebufferSize : Int × Int
  win32 : Bool
  faults : List Call → Call → Bool

/-- The nested struct `Display::Impl::Tile`. -/
structure Tile where
  x : ℚ
  y : ℚ
  type : TileType
  alpha : ℚ
  deriving DecidableEq

/-- The data members of `Display::Impl`. `TileTextures_` is the
`unordered_map<TileType, unsigned>` as an association list with unique keys in
use; a null `Window_` is `none`. -/
structure Impl where
  Window_ : Option Nat
  NextTextureIndex_ : Nat
  TileTextures_ : List (TileType × Nat)
  WinTexture_ : Nat
  Tiles_ : List Tile
  WinMessage_ : Bool
  deriving DecidableEq

/-- Object state together with the backend calls completed so far. -/
structure World where
  impl : Impl
  trace : List Call
  deriving DecidableEq

/-- Why a member function did not return. -/
inductive Failure
  | runtime_error (what : String)
  | backend_fault (call : Call)
  deriving DecidableEq

/-- Result of running a member function: it returned `a` in world `w`, or it
stopped with a failure, the world being `w` at that point. -/
inductive Result (α : Type)
  | ok (a : α) (w : World)
  | fail (f : Failure) (w : World)

/-- Computations over the world that may stop with a failure. -/
def M (α : Type) : Type := World → Result α

/-- Return a value, world unchanged. -/
def M.pure {α : Type} (a : α) : M α := fun w => Result.ok a w

/-- Sequencing: the continuation runs only if the first part returned. -/
def M.bind {α β : Type} (m : M α) (k : α → M β) : M β := fun w =>
  match m w with
  | Result.ok a w1 => k a w1
  | Result.fail f w1 => Result.fail f w1

instance : Monad M where
  pure := M.pure
  bind := M.bind

/-- The C++ statement `throw std::runtime_error(what)`. -/
def throwRuntimeError {α : Type} (what : String) : M α := fun w =>
  Result.fail (Failure.runtime_error what) w

/-- Issue one backend call: it faults if the environment says so, otherwise
it completes and is appended to the trace. -/
def gl (env : Env) (c : Call) : M Unit := fun w =>
  if env.faults w.trace c then Result.fail (Failure.backend_fault c) w
  else Result.ok () { w with trace := w.trace ++ [c] }

/-- Read the object state. -/
def getImpl : M Impl := fun w => Result.ok w.impl w

/-- Update the object state. -/
def modifyImpl (f : Impl → Impl) : M Unit := fun w =>
  Result.ok () { w with impl := f w.impl }

/-! ## The texture map -/

/-- The effect of `m[k] = v` on the map: overwrite the entry of `k`, or add one. -/
def mapAssign (k : TileType) (v : Nat) : List (TileType × Nat) → List (TileType × Nat)
  | [] => [(k, v)]
  | (k1, v1) :: rest =>
    if k1 = k then (k, v) :: rest else (k1, v1) :: mapAssign k v rest

/-- The effect of reading `m[k]`: the value stored for `k`; a missing key is
first inserted with the value-initialised `unsigned`, 0. -/
def mapIndex (k : TileType) (m : List (TileType × Nat)) : Nat × List (TileType × Nat) :=
  match m.lookup k with
  | some v => (v, m)
  | none => (0, m ++ [(k, 0)])

/-! ## Construction -/

/-- The function `Display::Impl::InitWindow`. -/
def InitWindow (env : Env) : M Unit := do
  gl env Call.glfwInit
  if env.glfwInit = false then
    throwRuntimeError "GLFW: Initialization failed!"
  gl env (Call.glfwWindowHint GLenum.GLFW_CONTEXT_VERSION_MAJOR 2)
  gl env (Call.glfwWindowHint GLenum.GLFW_CONTEXT_VERSION_MINOR 0)
  gl env (Call.glfwWindowHint GLenum.GLFW_SAMPLES 4)
  gl env (Call.glfwCreateWindow 700 700 "2048")
  modifyImpl (fun s => { s with Window_ := env.glfwCreateWindow })
  if env.glfwCreateWindow = none then
    gl env Call.glfwTerminate
    throwRuntimeError "GLFW: Window creation failed!"
  gl env (Call.glfwMakeContextCurrent env.glfwCreateWindow)
  gl env (Call.glfwSwapInterval 1)

/-- The function `Display::Impl::InitOpenGL`. -/
def InitOpenGL (env : Env) : M Unit := do
  gl env (Call.glDisable GLenum.GL_CULL_FACE)
  gl env (Call.glDisable GLenum.GL_DEPTH_TEST)
  gl env (Call.glBlendFunc GLenum.GL_SRC_ALPHA GLenum.GL_ONE_MINUS_SRC_ALPHA)
  gl env (Call.glEnable GLenum.GL_BLEND)
  gl env (Call.glDisable GLenum.GL_ALPHA_TEST)
  gl env (Call.glEnable GLenum.GL_TEXTURE_2D)
  if env.win32 = false then
    gl env (Call.glEnable GLenum.GL_MULTISAMPLE)

/-- The function `Display::Impl::LoadTexture`. -/
def LoadTexture (env : Env) (filename : String) : M Nat := do
  let r := env.decode filename
  if r.error ≠ 0 then
    throwRuntimeError ("LODEPNG: " ++ env.lodepng_error_text r.error)
  let s ← getImpl
  let textureId := s.NextTextureIndex_
  modifyImpl (fun s => { s with NextTextureIndex_ := (s.NextTextureIndex_ + 1) % 2 ^ 32 })
  gl env (Call.glBindTexture GLenum.GL_TEXTURE_2D textureId)
  gl env (Call.glTexParameterf GLenum.GL_TEXTURE_2D GLenum.GL_TEXTURE_MIN_FILTER GLenum.GL_NEAREST)
  gl env (Call.glTexParameterf GLenum.GL_TEXTURE_2D GLenum.GL_TEXTURE_MAG_FILTER GLenum.GL_NEAREST)
  gl env (Call.glTexImage2D GLenum.GL_TEXTURE_2D r.width r.height r.image)
  return textureId

/-- One statement `TileTextures_[type] = LoadTexture(filename);`. -/
def loadTile (env : Env) (type : TileType) (filename : String) : M Unit := do
  let textureId ← LoadTexture env filename
  modifyImpl (fun s => { s with TileTextures_ := mapAssign type textureId s.TileTextures_ })

/-- The function `Display::Impl::InitTextures`. -/
def InitTextures (env : Env) : M Unit := do
  loadTile env TileType.kkTile_1 "data/1.png"
  loadTile env TileType.kTile_2 "data/2.png"
  loadTile env TileType.kTile_4 "data/4.png"
  loadTile env TileType.kTile_8 "data/8.png"
  loadTile env TileType.kTile_16 "data/16.png"
  loadTile env TileType.kTile_32 "data/32.png"
  loadTile env TileType.kTile_64 "data/64.png"
  loadTile env TileType.kTile_128 "data/128.png"
  loadTile env TileType.kTile_256 "data/256.png"
  loadTile env TileType.kTile_512 "data/512.png"
  loadTile env TileType.kTile_1024 "data/1024.png"
  loadTile env TileType.kTile_2048 "data/2048.png"
  let textureId ← LoadTexture env "data/win.png"
  modifyImpl (fun s => { s with WinTexture_ := textureId })

/-- The object as the constructor's initialiser list leaves it:
`NextTextureIndex_(0), Tiles_(), WinMessage_(false)`, the map empty. `Window_`
and `WinTexture_` are indeterminate there and are assigned before any read. -/
def Impl.initial : Impl :=
  { Window_ := none, NextTextureIndex_ := 0, TileTextures_ := [], WinTexture_ := 0,
    Tiles_ := [], WinMessage_ := false }

/-- The body of the constructor `Display::Impl::Impl`. -/
def Impl.ctorBody (env : Env) : M Unit := do
  InitWindow env
  InitOpenGL env
  InitTextures env

/-- The destructor `Display::Impl::~Impl`. -/
def Impl.dtor (env : Env) : M Unit := do
  let s ← getImpl
  gl env (Call.glfwDestroyWindow s.Window_)
  gl env Call.glfwTerminate

/-- What the expression `new Impl()` of `Display::Display` gives its caller:
the constructed object, or the exception that left the constructor. In both
cases the backend calls made are kept for inspection. -/
inductive Constructed
  | object (s : Impl) (trace : List Call)
  | exception (f : Failure) (trace : List Call)

/-- The expression `new Impl()` of `Display::Display`: the constructor runs on
a fresh object with no backend call made yet. When it throws, the destructor
of the incomplete object does not run, the object is dropped and only the
exception reaches the caller. -/
def construct (env : Env) : Constructed :=
  match Impl.ctorBody env { impl := Impl.initial, trace := [] } with
  | Result.ok _ w => Constructed.object w.impl w.trace
  | Result.fail f w => Constructed.exception f w.trace

/-- The 13 asset paths `InitTextures` decodes, in order. -/
def assetPaths : List String :=
  ["data/1.png", "data/2.png", "data/4.png", "data/8.png", "data/16.png", "data/32.png",
   "data/64.png", "data/128.png", "data/256.png", "data/512.png", "data/1024.png",
   "data/2048.png", "data/win.png"]

/-! ## Per-frame operations -/

/-- The function `Display::Impl::DrawTile`. -/
def DrawTile (x y : ℚ) (type : TileType) (alpha : ℚ) (s : Impl) : Impl :=
  { s with Tiles_ := s.Tiles_ ++ [{ x := x, y := y, type := type, alpha := alpha }] }

/-- The function `Display::Impl::DrawWinMessage`. -/
def DrawWinMessage (s : Impl) : Impl :=
  { s with WinMessage_ := true }

/-- The body of the range-for loop of `Render`, for one tile. -/
def renderTile (env : Env) (tile : Tile) : M Unit := do
  let s ← getImpl
  let r := mapIndex tile.type s.TileTextures_
  modifyImpl (fun s => { s with TileTextures_ := r.2 })
  gl env (Call.glBindTexture GLenum.GL_TEXTURE_2D r.1)
  gl env (Call.glColor4f 1 1 1 tile.alpha)
  gl env (Call.glBegin GLenum.GL_QUADS)
  gl env (Call.glTexCoord2f 0 1)
  gl env (Call.glVertex2f (tile.y - 1 / 2) (tile.x + 1 / 2))
  gl env (Call.glTexCoord2f 0 0)
  gl env (Call.glVertex2f (tile.y - 1 / 2) (tile.x - 1 / 2))
  gl env (Call.glTexCoord2f 1 0)
  gl env (Call.glVertex2f (tile.y + 1 / 2) (tile.x - 1 / 2))
  gl env (Call.glTexCoord2f 1 1)
  gl env (Call.glVertex2f (tile.y + 1 / 2) (tile.x + 1 / 2))
  gl env Call.glEnd

/-- The loop `for (const auto& tile : Tiles_)` of `Render`. -/
def renderTiles (env : Env) : List Tile → M Unit
  | [] => pure ()
  | tile :: rest => do
    renderTile env tile
    renderTiles env rest

/-- The block `if (WinMessage_) ...` of `Render`. -/
def renderWin (env : Env) : M Unit := do
  let s ← getImpl
  if s.WinMessage_ = true then
    gl env (Call.glBindTexture GLenum.GL_TEXTURE_2D s.WinTexture_)
    gl env (Call.glColor4f 1 1 1 (9 / 10))
    gl env (Call.glBegin GLenum.GL_QUADS)
    gl env (Call.glTexCoord2f 0 1)
    gl env (Call.glVertex2f (-1 / 2) (7 / 2))
    gl env (Call.glTexCoord2f 0 0)
    gl env (Call.glVertex2f (-1 / 2) (-1 / 2))
    gl env (Call.glTexCoord2f 1 0)
    gl env (Call.glVertex2f (7 / 2) (-1 / 2))
    gl env (Call.glTexCoord2f 1 1)
    gl env (Call.glVertex2f (7 / 2) (7 / 2))
    gl env Call.glEnd

/-- The function `Display::Impl::Render`. -/
def Render (env : Env) : M Unit := do
  let s ← getImpl
  gl env (Call.glfwGetFramebufferSize s.Window_)
  gl env (Call.glViewport 0 0 env.framebufferSize.1 env.framebufferSize.2)
  gl env (Call.glClear true true)
  gl env (Call.glClearColor (1 / 2) 1 (83 / 100) 1)
  gl env (Call.glMatrixMode GLenum.GL_PROJECTION)
  gl env Call.glLoadIdentity
  gl env (Call.glOrtho (-1 / 2) (7 / 2) (7 / 2) (-1 / 2) (-1) 1)
  gl env (Call.glMatrixMode GLenum.GL_MODELVIEW)
  gl env Call.glLoadIdentity
  renderTiles env s.Tiles_
  renderWin env
  gl env (Call.glfwSwapBuffers s.Window_)
  modifyImpl (fun s => { s with Tiles_ := [] })
  modifyImpl (fun s => { s with WinMessage_ := false })

/-- Any interleaving of `DrawTile` and `DrawWinMessage` calls a caller can make
on the public surface between two frames. -/
inductive Request
  | tile (x y : ℚ) (type : TileType) (alpha : ℚ)
  | win
  deriving DecidableEq

/-- Perform one request on the object. -/
def Request.apply (s : Impl) : Request → Impl
  | Request.tile x y type alpha => DrawTile x y type alpha s
  | Request.win => DrawWinMessage s

/-- Perform a sequence of requests, first to last. -/
def applyRequests (reqs : List Request) (s : Impl) : Impl :=
  reqs.foldl Request.apply s

/-- The tile a request queues, if it is a `DrawTile`. -/
def Request.toTile : Request → Option Tile
  | Request.tile x y type alpha => some { x := x, y := y, type := type, alpha := alpha }
  | Request.win => none

/-- The backend never faults. -/
def NoFaults (env : Env) : Prop := ∀ (history : List Call) (c : Call), env.faults history c = false

/-- The FrameState part of the object: the tile queue and the win-banner flag. -/
def Impl.frame (s : Impl) : List Tile × Bool := (s.Tiles_, s.WinMessage_)

/-! ## The backend as the program's observer

The fixed-function OpenGL state machine, restricted to what the program uses:
`glClear` uses the clear colour current at the call, `glVertex2f` emits a vertex
carrying the current texture coordinate and colour and transformed by the
current modelview and projection matrices, `glBegin` ... `glEnd` delimits one
primitive drawn with the texture bound at `glBegin`. All the matrices the
program builds are axis-aligned, so a matrix is a scale and an offset per axis.
-/

/-- The map `(x, y) ↦ (sx * x + tx, sy * y + ty)`. -/
structure Affine where
  sx : ℚ
  tx : ℚ
  sy : ℚ
  ty : ℚ
  deriving DecidableEq

/-- The identity matrix of `glLoadIdentity`. -/
def Affine.one : Affine := { sx := 1, tx := 0, sy := 1, ty := 0 }

/-- Apply the map to a point. -/
def Affine.app (m : Affine) (p : ℚ × ℚ) : ℚ × ℚ := (m.sx * p.1 + m.tx, m.sy * p.2 + m.ty)

/-- The matrix product `m * n`: `n` acts on the point first. -/
def Affine.mul (m n : Affine) : Affine :=
  { sx := m.sx * n.sx, tx := m.sx * n.tx + m.tx, sy := m.sy * n.sy, ty := m.sy * n.ty + m.ty }

/-- The matrix of `glOrtho(left, right, bottom, top, ...)` on the x and y axes. -/
def Affine.ortho (left right bottom top : ℚ) : Affine :=
  { sx := 2 / (right - left), tx := -(right + left) / (right - left),
    sy := 2 / (top - bottom), ty := -(top + bottom) / (top - bottom) }

/-- A colour: red, green, blue, alpha. -/
structure Color where
  r : ℚ
  g : ℚ
  b : ℚ
  a : ℚ
  deriving DecidableEq

/-- A vertex as the backend receives it: the position passed to `glVertex2f`,
the texture coordinate and colour current at that call, and the position in
normalised device coordinates, where x = -1 is the left edge of the viewport,
x = 1 the right edge, y = -1 the bottom edge and y = 1 the top edge. -/
structure Vertex where
  pos : ℚ × ℚ
  tex : ℚ × ℚ
  color : Color
  ndc : ℚ × ℚ
  deriving DecidableEq

/-- What the backend does that a viewer can see. -/
inductive Event
  | clear (color : Color)
  | quad (texture : Nat) (vertices : List Vertex)
  | present
  deriving DecidableEq

/-- The part of the OpenGL state the program reads or writes. -/
structure GLState where
  clearColor : Color
  texture : Nat
  color : Color
  texCoord : ℚ × ℚ
  projectionMode : Bool
  projection : Affine
  modelview : Affine
  primitive : List Vertex
  deriving DecidableEq

/-- The state of a fresh OpenGL context: clear colour (0, 0, 0, 0), texture 0
bound, colour (1, 1, 1, 1), texture coordinate (0, 0), matrix mode
`GL_MODELVIEW`, both matrices the identity. -/
def GLState.fresh : GLState :=
  { clearColor := ⟨0, 0, 0, 0⟩, texture := 0, color := ⟨1, 1, 1, 1⟩, texCoord := (0, 0),
    projectionMode := false, projection := Affine.one, modelview := Affine.one,
    primitive := [] }

/-- The effect of one backend call on the OpenGL state, and the events it shows. -/
def GLState.step (st : GLState) : Call → GLState × List Event
  | Call.glClearColor r g b a => ({ st with clearColor := ⟨r, g, b, a⟩ }, [])
  | Call.glClear colorBit _ => (st, if colorBit then [Event.clear st.clearColor] else [])
  | Call.glBindTexture _ texture => ({ st with texture := texture }, [])
  | Call.glColor4f r g b a => ({ st with color := ⟨r, g, b, a⟩ }, [])
  | Call.glTexCoord2f s t => ({ st with texCoord := (s, t) }, [])
  | Call.glMatrixMode mode =>
    ({ st with projectionMode := decide (mode = GLenum.GL_PROJECTION) }, [])
  | Call.glLoadIdentity =>
    (if st.projectionMode then { st with projection := Affine.one }
     else { st with modelview := Affine.one }, [])
  | Call.glOrtho left right bottom top _ _ =>
    (if st.projectionMode then
       { st with projection := st.projection.mul (Affine.ortho left right bottom top) }
     else { st with modelview := st.modelview.mul (Affine.ortho left right bottom top) }, [])
  | Call.glBegin _ => ({ st with primitive := [] }, [])
  | Call.glVertex2f x y =>
    ({ st with primitive := st.primitive ++
        [{ pos := (x, y), tex := st.texCoord, color := st.color,
           ndc := st.projection.app (st.modelview.app (x, y)) }] }, [])
  | Call.glEnd => ({ st with primitive := [] }, [Event.quad st.texture st.primitive])
  | Call.glfwSwapBuffers _ => (st, [Event.present])
  | _ => (st, [])

/-- Run a trace of backend calls from a state: the final state and all events. -/
def GLState.run (st : GLState) : List Call → GLState × List Event
  | [] => (st, [])
  | c :: cs =>
    let r := st.step c
    let rs := GLState.run r.1 cs
    (rs.1, r.2 ++ rs.2)

/-- The events a trace of backend calls shows, started in state `st`. -/
def observe (st : GLState) (calls : List Call) : List Event := (st.run calls).2

/-- The texture and the alpha of each vertex of a quad; no value for other events. -/
def Event.textureAlpha : Event → Option (Nat × List ℚ)
  | Event.quad texture vertices => some (texture, vertices.map (fun v => v.color.a))
  | _ => none

/-! ## Concrete environments and objects used as instances -/

/-- An environment in which everything succeeds: every image decodes to one
pixel, the window is handle 1, the framebuffer is 700 by 700, no call faults. -/
def okEnv : Env :=
  { glfwInit := true, glfwCreateWindow := some 1,
    decode := fun _ => { error := 0, image := [255, 255, 255, 255], width := 1, height := 1 },
    lodepng_error_text := fun _ => "", framebufferSize := (700, 700), win32 := false,
    faults := fun _ _ => false }

/-- As `okEnv`, but `data/2048.png` is missing: lodepng reports error 78. -/
def missingEnv : Env :=
  { okEnv with
    decode := fun p =>
      if p = "data/2048.png" then { error := 78, image := [], width := 0, height := 0 }
      else { error := 0, image := [255, 255, 255, 255], width := 1, height := 1 },
    lodepng_error_text := fun _ => "failed to open file for reading" }

/-- As `okEnv`, but the backend faults at `glfwSwapBuffers`. -/
def swapFaultEnv : Env :=
  { okEnv with
    faults := fun _ c => match c with
      | Call.glfwSwapBuffers _ => true
      | _ => false }

/-- The object a successful construction produces in `okEnv`. -/
def okImpl : Impl :=
  { Window_ := some 1, NextTextureIndex_ := 13,
    TileTextures_ :=
      [(TileType.kkTile_1, 0), (TileType.kTile_2, 1), (TileType.kTile_4, 2),
       (TileType.kTile_8, 3), (TileType.kTile_16, 4), (TileType.kTile_32, 5),
       (TileType.kTile_64, 6), (TileType.kTile_128, 7), (TileType.kTile_256, 8),
       (TileType.kTile_512, 9), (TileType.kTile_1024, 10), (TileType.kTile_2048, 11)],
    WinTexture_ := 12, Tiles_ := [], WinMessage_ := false }

/-- The handle `okImpl` holds for each tile type. -/
def okHandle : TileType → Nat
  | TileType.kkTile_1 => 0
  | TileType.kTile_2 => 1
  | TileType.kTile_4 => 2
  | TileType.kTile_8 => 3
  | TileType.kTile_16 => 4
  | TileType.kTile_32 => 5
  | TileType.kTile_64 => 6
  | TileType.kTile_128 => 7
  | TileType.kTile_256 => 8
  | TileType.kTile_512 => 9
  | TileType.kTile_1024 => 10
  | TileType.kTile_2048 => 11

/-- As `okEnv`, but `glfwCreateWindow` returns a null pointer. -/
def noWindowEnv : Env := { okEnv with glfwCreateWindow := none }

/-- An object with tile (0,0) `kTile_2` alpha 1 and tile (3,3) `kTile_2048`
alpha 1/2 queued and the win-banner flag set. -/
def busyImpl : Impl :=
  DrawWinMessage (DrawTile 3 3 TileType.kTile_2048 (1 / 2) (DrawTile 0 0 TileType.kTile_2 1 okImpl))

/-- The position of a tile type in the enumeration (its `static_cast<size_t>`). -/
def TileType.index : TileType → Nat
  | TileType.kkTile_1 => 0
  | TileType.kTile_2 => 1
  | TileType.kTile_4 => 2
  | TileType.kTile_8 => 3
  | TileType.kTile_16 => 4
  | TileType.kTile_32 => 5
  | TileType.kTile_64 => 6
  | TileType.kTile_128 => 7
  | TileType.kTile_256 => 8
  | TileType.kTile_512 => 9
  | TileType.kTile_1024 => 10
  | TileType.kTile_2048 => 11

/-- The value `NextTextureIndex_++` yields at the `i`-th call of `LoadTexture`
(counted from 0) when the member is `n` before the first call. -/
def handleFrom (n i : Nat) : Nat := if i = 0 then n else (n + i) % 2 ^ 32

/-- The vertex the claim about tile geometry describes, for a tile and a
texture coordinate `(u, v)`: position `(col - 1/2 + u, row - 1/2 + v)` with
`row = tile.x` and `col = tile.y`, that texture coordinate, white tinted with
the alpha of the tile, seen through `glOrtho(-0.5, 3.5, 3.5, -0.5, ...)`. -/
def unitSquareVertex (tile : Tile) (u v : ℚ) : Vertex :=
  { pos := (tile.y - 1 / 2 + u, tile.x - 1 / 2 + v),
    tex := (u, v),
    color := ⟨1, 1, 1, tile.alpha⟩,
    ndc := (Affine.ortho (-1 / 2) (7 / 2) (7 / 2) (-1 / 2)).app
      (tile.y - 1 / 2 + u, tile.x - 1 / 2 + v) }

/-- The object is as construction or a returning `Render` leaves it: no
`DrawTile` or `DrawWinMessage` has been called on it since. -/
def Fresh (s : Impl) : Prop :=
  (∃ env trace, construct env = Constructed.object s trace) ∨
  (∃ env w trace, Render env w = Result.ok () ⟨s, trace⟩)

/-- The backend calls of a successful construction in `okEnv`. -/
def okTrace : List Call :=
  [Call.glfwInit,
   Call.glfwWindowHint GLenum.GLFW_CONTEXT_VERSION_MAJOR 2,
   Call.glfwWindowHint GLenum.GLFW_CONTEXT_VERSION_MINOR 0,
   Call.glfwWindowHint GLenum.GLFW_SAMPLES 4,
   Call.glfwCreateWindow 700 700 "2048",
   Call.glfwMakeContextCurrent (some 1),
   Call.glfwSwapInterval 1,
   Call.glDisable GLenum.GL_CULL_FACE,
   Call.glDisable GLenum.GL_DEPTH_TEST,
   Call.glBlendFunc GLenum.GL_SRC_ALPHA GLenum.GL_ONE_MINUS_SRC_ALPHA,
   Call.glEnable GLenum.GL_BLEND,
   Call.glDisable GLenum.GL_ALPHA_TEST,
   Call.glEnable GLenum.GL_TEXTURE_2D,
   Call.glEnable GLenum.GL_MULTISAMPLE]
  ++ (List.range 13).flatMap (fun i =>
    [Call.glBindTexture GLenum.GL_TEXTURE_2D i,
     Call.glTexParameterf GLenum.GL_TEXTURE_2D GLenum.GL_TEXTURE_MIN_FILTER GLenum.GL_NEAREST,
     Call.glTexParameterf GLenum.GL_TEXTURE_2D GLenum.GL_TEXTURE_MAG_FILTER GLenum.GL_NEAREST,
     Call.glTexImage2D GLenum.GL_TEXTURE_2D 1 1 [255, 255, 255, 255]])

/-- The call neither shows an event nor sets the clear colour. -/
def Call.silent : Call → Bool
  | Call.glClearColor _ _ _ _ => false
  | Call.glClear _ _ => false
  | Call.glEnd => false
  | Call.glfwSwapBuffers _ => false
  | _ => true

/-- The call is the present step, `glfwSwapBuffers`. -/
def Call.isPresent : Call → Bool
  | Call.glfwSwapBuffers _ => true
  | _ => false

/-- The backend does not fault at any call other than the present step. -/
def DrawsWithoutFault (env : Env) : Prop :=
  ∀ (history : List Call) (c : Call), c.isPresent = false → env.faults history c = false

/-! ## Invariants of computations -/

/-- The computation leaves the FrameState as it found it, whether it returns
or stops with a failure. -/
def Keeps {α : Type} (m : M α) : Prop :=
  ∀ w : World, match m w with
    | Result.ok _ w1 => w1.impl.frame = w.impl.frame
    | Result.fail _ w1 => w1.impl.frame = w.impl.frame

/-- When the computation stops with a failure, the FrameState is as it found it. -/
def KeepsOnFail {α : Type} (m : M α) : Prop :=
  ∀ w : World, match m w with
    | Result.ok _ _ => True
    | Result.fail _ w1 => w1.impl.frame = w.impl.frame

/-- Whenever the computation returns, the world it returns satisfies `Q`. -/
def Ensures {α : Type} (m : M α) (Q : World → Prop) : Prop :=
  ∀ (w : World) (a : α) (w1 : World), m w = Result.ok a w1 → Q w1

/-! ## Closed forms used in the proofs -/

/-- The calls of one iteration of the loop of `Render`, given the handle read
from the map. -/
def tileCalls (texture : Nat) (tile : Tile) : List Call :=
  [Call.glBindTexture GLenum.GL_TEXTURE_2D texture,
   Call.glColor4f 1 1 1 tile.alpha,
   Call.glBegin GLenum.GL_QUADS,
   Call.glTexCoord2f 0 1, Call.glVertex2f (tile.y - 1 / 2) (tile.x + 1 / 2),
   Call.glTexCoord2f 0 0, Call.glVertex2f (tile.y - 1 / 2) (tile.x - 1 / 2),
   Call.glTexCoord2f 1 0, Call.glVertex2f (tile.y + 1 / 2) (tile.x - 1 / 2),
   Call.glTexCoord2f 1 1, Call.glVertex2f (tile.y + 1 / 2) (tile.x + 1 / 2),
   Call.glEnd]

/-- The calls of the win-banner block of `Render` when the flag is set. -/
def winCalls (texture : Nat) : List Call :=
  [Call.glBindTexture GLenum.GL_TEXTURE_2D texture,
   Call.glColor4f 1 1 1 (9 / 10),
   Call.glBegin GLenum.GL_QUADS,
   Call.glTexCoord2f 0 1, Call.glVertex2f (-1 / 2) (7 / 2),
   Call.glTexCoord2f 0 0, Call.glVertex2f (-1 / 2) (-1 / 2),
   Call.glTexCoord2f 1 0, Call.glVertex2f (7 / 2) (-1 / 2),
   Call.glTexCoord2f 1 1, Call.glVertex2f (7 / 2) (7 / 2),
   Call.glEnd]

/-- The calls `Render` makes before the loop. -/
def setupCalls (env : Env) (s : Impl) : List Call :=
  [Call.glfwGetFramebufferSize s.Window_,
   Call.glViewport 0 0 env.framebufferSize.1 env.framebufferSize.2,
   Call.glClear true true,
   Call.glClearColor (1 / 2) 1 (83 / 100) 1,
   Call.glMatrixMode GLenum.GL_PROJECTION,
   Call.glLoadIdentity,
   Call.glOrtho (-1 / 2) (7 / 2) (7 / 2) (-1 / 2) (-1) 1,
   Call.glMatrixMode GLenum.GL_MODELVIEW,
   Call.glLoadIdentity]

/-- The map after the loop of `Render` has read the entry of every queued tile. -/
def touchAll (tiles : List Tile) (m : List (TileType × Nat)) : List (TileType × Nat) :=
  tiles.foldl (fun m tile => (mapIndex tile.type m).2) m

/-- The calls of `Render` that precede the present step. -/
def drawCalls (env : Env) (s : Impl) : List Call :=
  setupCalls env s
    ++ s.Tiles_.flatMap (fun tile => tileCalls (mapIndex tile.type s.TileTextures_).1 tile)
    ++ (if s.WinMessage_ = true then winCalls s.WinTexture_ else [])

/-- All the calls of one fault-free `Render`. -/
def frameCalls (env : Env) (s : Impl) : List Call :=
  setupCalls env s
    ++ s.Tiles_.flatMap (fun tile => tileCalls (mapIndex tile.type s.TileTextures_).1 tile)
    ++ (if s.WinMessage_ = true then winCalls s.WinTexture_ else [])
    ++ [Call.glfwSwapBuffers s.Window_]

/-- The vertex the backend receives for position `p` and texture coordinate
`t` under the matrices `Render` sets up, with colour (1, 1, 1, alpha). -/
def frameVertex (alpha : ℚ) (t p : ℚ × ℚ) : Vertex :=
  { pos := p, tex := t, color := ⟨1, 1, 1, alpha⟩, ndc := (p.1 / 2 - 3 / 4, 3 / 4 - p.2 / 2) }

/-- The quad the backend draws for one queued tile. -/
def tileQuad (texture : Nat) (tile : Tile) : Event :=
  Event.quad texture
    [frameVertex tile.alpha (0, 1) (tile.y - 1 / 2, tile.x + 1 / 2),
     frameVertex tile.alpha (0, 0) (tile.y - 1 / 2, tile.x - 1 / 2),
     frameVertex tile.alpha (1, 0) (tile.y + 1 / 2, tile.x - 1 / 2),
     frameVertex tile.alpha (1, 1) (tile.y + 1 / 2, tile.x + 1 / 2)]

/-- The quad the backend draws for the win banner. -/
def winQuad (texture : Nat) : Event :=
  Event.quad texture
    [frameVertex (9 / 10) (0, 1) (-1 / 2, 7 / 2),
     frameVertex (9 / 10) (0, 0) (-1 / 2, -1 / 2),
     frameVertex (9 / 10) (1, 0) (7 / 2, -1 / 2),
     frameVertex (9 / 10) (1, 1) (7 / 2, 7 / 2)]

/-- All the events of one fault-free `Render`, the clear colour being `c` when
it starts. -/
def frameEvents (c : Color) (s : Impl) : List Event :=
  Event.clear c
    :: s.Tiles_.map (fun tile => tileQuad (mapIndex tile.type s.TileTextures_).1 tile)
    ++ (if s.WinMessage_ = true then [winQuad s.WinTexture_] else [])
    ++ [Event.present]

/-- The background colour `Render` passes to `glClearColor`. -/
def background : Color := ⟨1 / 2, 1, 83 / 100, 1⟩

/-- The projection matrix `Render` builds: `glOrtho(-0.5, 3.5, 3.5, -0.5, ...)`
on the identity. -/
def frameProjection : Affine := { sx := 1 / 2, tx := -3 / 4, sy := -1 / 2, ty := 3 / 4 }

/-- The OpenGL state is the one `Render` draws in. -/
def Framed (st : GLState) : Prop :=
  st.projection = frameProjection ∧ st.modelview = Affine.one ∧ st.clearColor = background

/-! ## Basic facts about the computations -/

theorem bind_run {α β : Type} (m : M α) (k : α → M β) (w : World) :
    (m >>= k) w = match m w with
      | Result.ok a w1 => k a w1
      | Result.fail f w1 => Result.fail f w1 := rfl

@[simp] theorem pure_run {α : Type} (a : α) (w : World) : (pure a : M α) w = Result.ok a w := rfl

@[simp] theorem getImpl_bind {β : Type} (k : Impl → M β) (w : World) :
    (getImpl >>= k) w = k w.impl w := rfl

@[simp] theorem modifyImpl_bind {β : Type} (f : Impl → Impl) (k : Unit → M β) (w : World) :
    (modifyImpl f >>= k) w = k () { w with impl := f w.impl } := rfl

@[simp] theorem modifyImpl_run (f : Impl → Impl) (w : World) :
    modifyImpl f w = Result.ok () { w with impl := f w.impl } := rfl

@[simp] theorem throw_bind {α β : Type} (what : String) (k : α → M β) (w : World) :
    ((throwRuntimeError what : M α) >>= k) w = Result.fail (Failure.runtime_error what) w := rfl

@[simp] theorem throw_run {α : Type} (what : String) (w : World) :
    (throwRuntimeError what : M α) w = Result.fail (Failure.runtime_error what) w := rfl

theorem gl_run_ok (env : Env) (h : NoFaults env) (c : Call) (w : World) :
    gl env c w = Result.ok () { w with trace := w.trace ++ [c] } := by
  simp [gl, h w.trace c]

theorem gl_bind_ok {β : Type} (env : Env) (h : NoFaults env) (c : Call) (k : Unit → M β)
    (w : World) : (gl env c >>= k) w = k () { w with trace := w.trace ++ [c] } := by
  simp [bind_run, gl_run_ok env h]

theorem okEnv_noFaults : NoFaults okEnv := fun _ _ => rfl

/-! ## The texture map -/

theorem lookup_mapIndex (k k1 : TileType) (m : List (TileType × Nat)) :
    (mapIndex k (mapIndex k1 m).2).1 = (mapIndex k m).1 := by
  unfold mapIndex
  cases h1 : m.lookup k1 with
  | some v => simp
  | none =>
    simp only [List.lookup_append]
    cases h : m.lookup k with
    | some v => simp
    | none =>
      by_cases hk : k = k1
      · subst hk; simp
      · have : (k == k1) = false := by simpa using hk
        simp [List.lookup, this]

/-! ## A fault-free frame -/

theorem noFaults_draws (env : Env) (h : NoFaults env) : DrawsWithoutFault env :=
  fun history c _ => h history c

theorem gl_run_draw (env : Env) (h : DrawsWithoutFault env) (c : Call)
    (hc : c.isPresent = false) (w : World) :
    gl env c w = Result.ok () { w with trace := w.trace ++ [c] } := by
  simp [gl, h w.trace c hc]

theorem gl_bind_draw {β : Type} (env : Env) (h : DrawsWithoutFault env) (c : Call)
    (hc : c.isPresent = false) (k : Unit → M β) (w : World) :
    (gl env c >>= k) w = k () { w with trace := w.trace ++ [c] } := by
  simp [bind_run, gl_run_draw env h c hc]

theorem renderTile_ok (env : Env) (h : DrawsWithoutFault env) (tile : Tile) (w : World) :
    renderTile env tile w = Result.ok ()
      { impl := { w.impl with TileTextures_ := (mapIndex tile.type w.impl.TileTextures_).2 },
        trace := w.trace ++ tileCalls (mapIndex tile.type w.impl.TileTextures_).1 tile } := by
  simp [renderTile, gl_bind_draw env h, gl_run_draw env h, tileCalls, Call.isPresent]

theorem renderTiles_ok (env : Env) (h : DrawsWithoutFault env) (tiles : List Tile) (w : World) :
    renderTiles env tiles w = Result.ok ()
      { impl := { w.impl with TileTextures_ := touchAll tiles w.impl.TileTextures_ },
        trace := w.trace ++
          tiles.flatMap (fun tile => tileCalls (mapIndex tile.type w.impl.TileTextures_).1 tile) } := by
  induction tiles generalizing w with
  | nil => simp [renderTiles, touchAll]
  | cons t ts ih =>
    simp only [renderTiles, bind_run, renderTile_ok env h, ih]
    simp [touchAll, lookup_mapIndex]

theorem renderWin_ok (env : Env) (h : DrawsWithoutFault env) (w : World) :
    renderWin env w = Result.ok ()
      { w with trace := w.trace ++
          (if w.impl.WinMessage_ = true then winCalls w.impl.WinTexture_ else []) } := by
  unfold renderWin
  by_cases hw : w.impl.WinMessage_ = true
  · simp [hw, gl_bind_draw env h, gl_run_draw env h, winCalls, Call.isPresent]
  · simp [hw]

theorem Render_ok (env : Env) (h : NoFaults env) (w : World) :
    Render env w = Result.ok ()
      { impl := { w.impl with TileTextures_ := touchAll w.impl.Tiles_ w.impl.TileTextures_,
                              Tiles_ := [], WinMessage_ := false },
        trace := w.trace ++ frameCalls env w.impl } := by
  simp [Render, gl_bind_ok env h, bind_run, renderTiles_ok env (noFaults_draws env h),
    renderWin_ok env (noFaults_draws env h), frameCalls, setupCalls, getImpl]

theorem Render_stops_at_present (env : Env) (h : DrawsWithoutFault env) (w : World)
    (hf : env.faults (w.trace ++ drawCalls env w.impl)
      (Call.glfwSwapBuffers w.impl.Window_) = true) :
    Render env w = Result.fail (Failure.backend_fault (Call.glfwSwapBuffers w.impl.Window_))
      { impl := { w.impl with TileTextures_ := touchAll w.impl.Tiles_ w.impl.TileTextures_ },
        trace := w.trace ++ drawCalls env w.impl } := by
  simp [drawCalls, setupCalls] at hf
  simp [Render, gl_bind_draw env h, bind_run, renderTiles_ok env h, renderWin_ok env h,
    getImpl, Call.isPresent, gl, hf, drawCalls, setupCalls]

/-! ## What the backend shows for a fault-free frame -/

theorem run_append (st : GLState) (a b : List Call) :
    st.run (a ++ b) = (((st.run a).1.run b).1, (st.run a).2 ++ ((st.run a).1.run b).2) := by
  induction a generalizing st with
  | nil => simp [GLState.run]
  | cons c cs ih => simp [GLState.run, ih]

theorem run_setupCalls (env : Env) (s : Impl) (st : GLState) :
    Framed (st.run (setupCalls env s)).1 ∧
      (st.run (setupCalls env s)).2 = [Event.clear st.clearColor] := by
  simp [setupCalls, GLState.run, GLState.step, Framed, frameProjection, background,
    Affine.mul, Affine.one, Affine.ortho]
  norm_num

theorem run_tileCalls (texture : Nat) (tile : Tile) (st : GLState) (h : Framed st) :
    Framed (st.run (tileCalls texture tile)).1 ∧
      (st.run (tileCalls texture tile)).2 = [tileQuad texture tile] := by
  obtain ⟨hp, hm, hc⟩ := h
  refine ⟨⟨?_, ?_, ?_⟩, ?_⟩
  · simpa [tileCalls, GLState.run, GLState.step] using hp
  · simpa [tileCalls, GLState.run, GLState.step] using hm
  · simpa [tileCalls, GLState.run, GLState.step] using hc
  · simp [tileCalls, GLState.run, GLState.step, tileQuad, frameVertex, hp, hm, frameProjection,
      Affine.app, Affine.one]
    refine ⟨⟨?_, ?_⟩, ⟨?_, ?_⟩, ⟨?_, ?_⟩, ?_, ?_⟩ <;> ring

theorem run_winCalls (texture : Nat) (st : GLState) (h : Framed st) :
    Framed (st.run (winCalls texture)).1 ∧
      (st.run (winCalls texture)).2 = [winQuad texture] := by
  obtain ⟨hp, hm, hc⟩ := h
  refine ⟨⟨?_, ?_, ?_⟩, ?_⟩
  · simpa [winCalls, GLState.run, GLState.step] using hp
  · simpa [winCalls, GLState.run, GLState.step] using hm
  · simpa [winCalls, GLState.run, GLState.step] using hc
  · simp [winCalls, GLState.run, GLState.step, winQuad, frameVertex, hp, hm, frameProjection,
      Affine.app, Affine.one]
    norm_num

theorem run_tiles (f : Tile → Nat) (tiles : List Tile) (st : GLState) (h : Framed st) :
    Framed (st.run (tiles.flatMap (fun tile => tileCalls (f tile) tile))).1 ∧
      (st.run (tiles.flatMap (fun tile => tileCalls (f tile) tile))).2
        = tiles.map (fun tile => tileQuad (f tile) tile) := by
  induction tiles generalizing st with
  | nil => exact ⟨h, rfl⟩
  | cons t ts ih =>
    have h1 := run_tileCalls (f t) t st h
    have h2 := ih (st.run (tileCalls (f t) t)).1 h1.1
    simp only [List.flatMap_cons, run_append, List.map_cons]
    exact ⟨h2.1, by rw [h1.2, h2.2]; rfl⟩

theorem run_frameCalls (env : Env) (s : Impl) (st : GLState) :
    Framed (st.run (frameCalls env s)).1 ∧
      (st.run (frameCalls env s)).2 = frameEvents st.clearColor s := by
  have h1 := run_setupCalls env s st
  have h2 := run_tiles (fun tile => (mapIndex tile.type s.TileTextures_).1) s.Tiles_ _ h1.1
  unfold frameCalls frameEvents
  by_cases hw : s.WinMessage_ = true
  · have h3 := run_winCalls s.WinTexture_ _ h2.1
    simp only [hw, if_true, run_append]
    refine ⟨?_, ?_⟩
    · simpa [GLState.run, GLState.step] using h3.1
    · rw [h1.2, h2.2, h3.2]
      simp [GLState.run, GLState.step]
  · simp only [hw, run_append]
    refine ⟨?_, ?_⟩
    · simpa [GLState.run, GLState.step] using h2.1
    · rw [h1.2, h2.2]
      simp [GLState.run, GLState.step]

theorem observe_frameCalls (env : Env) (s : Impl) (st : GLState) :
    observe st (frameCalls env s) = frameEvents st.clearColor s :=
  (run_frameCalls env s st).2

/-! ## Requests between two frames -/

theorem applyRequests_fields (reqs : List Request) (s : Impl) :
    (applyRequests reqs s).Tiles_ = s.Tiles_ ++ reqs.filterMap Request.toTile ∧
    (applyRequests reqs s).WinMessage_ = (s.WinMessage_ || decide (Request.win ∈ reqs)) ∧
    (applyRequests reqs s).TileTextures_ = s.TileTextures_ ∧
    (applyRequests reqs s).WinTexture_ = s.WinTexture_ ∧
    (applyRequests reqs s).Window_ = s.Window_ := by
  induction reqs generalizing s with
  | nil => simp [applyRequests]
  | cons r rs ih =>
    have h := ih (Request.apply s r)
    simp only [applyRequests, List.foldl_cons] at h ⊢
    obtain ⟨h1, h2, h3, h4, h5⟩ := h
    refine ⟨h1.trans ?_, h2.trans ?_, h3.trans ?_, h4.trans ?_, h5.trans ?_⟩ <;>
      cases r <;> simp [Request.apply, DrawTile, DrawWinMessage, Request.toTile]

theorem DrawWinMessage_of_flag (s : Impl) (h : s.WinMessage_ = true) : DrawWinMessage s = s := by
  cases s
  simp_all [DrawWinMessage]

theorem mapIndex_of_lookup (k : TileType) (m : List (TileType × Nat)) (v : Nat)
    (h : m.lookup k = some v) : (mapIndex k m).1 = v := by
  simp [mapIndex, h]

theorem foldl_DrawTile (cs : List Tile) (s0 : Impl) :
    cs.foldl (fun s c => DrawTile c.x c.y c.type c.alpha s) s0
      = { s0 with Tiles_ := s0.Tiles_ ++ cs } := by
  induction cs generalizing s0 with
  | nil => simp
  | cons c cs ih =>
    simp only [List.foldl_cons]
    rw [ih]
    simp [DrawTile]

theorem textureAlpha_tileQuad (texture : Nat) (tile : Tile) :
    Event.textureAlpha (tileQuad texture tile)
      = some (texture, [tile.alpha, tile.alpha, tile.alpha, tile.alpha]) := rfl

theorem filterMap_tileQuads (f : TileType → Nat) (cs : List Tile) :
    (cs.map (fun tile => tileQuad (f tile.type) tile)).filterMap Event.textureAlpha
      = cs.map (fun c => (f c.type, [c.alpha, c.alpha, c.alpha, c.alpha])) := by
  induction cs with
  | nil => rfl
  | cons c cs ih =>
    simp only [List.map_cons]
    rw [List.filterMap_cons_some (textureAlpha_tileQuad _ _), ih]

theorem count_present_tileQuads (f : TileType → Nat) (cs : List Tile) :
    (cs.map (fun tile => tileQuad (f tile.type) tile)).count Event.present = 0 := by
  induction cs with
  | nil => rfl
  | cons c cs ih =>
    simp only [List.map_cons]
    rw [List.count_cons, ih]
    simp [tileQuad]

/-! ## The claims about a fault-free frame -/

/-- C1: for every object state (any queued tiles, any value of the win-banner
flag) and a backend that does not fault, `Render` returns, and in the state it
returns the tile queue is empty and the win-banner flag is false. -/
theorem Render_resets_frame (env : Env) (w : World) (h : NoFaults env) :
    ∃ w1, Render env w = Result.ok () w1 ∧ w1.impl.Tiles_ = [] ∧ w1.impl.WinMessage_ = false := by
  exact ⟨_, Render_ok env h w, rfl, rfl⟩

/-- C1, instance: two queued tiles and the banner flag set. -/
theorem Render_resets_frame_witness :
    NoFaults okEnv ∧
    ∃ w1, Render okEnv
        ⟨DrawWinMessage (DrawTile 3 3 TileType.kTile_2048 (1 / 2)
          (DrawTile 0 0 TileType.kTile_2 1 okImpl)), []⟩ = Result.ok () w1 ∧
      w1.impl.Tiles_ = [] ∧ w1.impl.WinMessage_ = false :=
  ⟨okEnv_noFaults, Render_resets_frame okEnv _ okEnv_noFaults⟩

/-- C2: on an object whose queue is empty (as construction or the previous
`Render` leaves it) and whose map holds `handle t` for every tile type `t`,
after any sequence of `DrawTile` calls a fault-free `Render` returns, and the
quads the backend draws are exactly one per call, in call order, each with the
texture `handle type` of its call bound and every vertex tinted with the
alpha of its call as passed (followed by the banner quad when the flag is
set); the frame shows exactly one present, and it is the last event. With no
call there is no tile quad. -/
theorem Render_draws_queue_in_order (env : Env) (h : NoFaults env) (s : Impl)
    (trace0 : List Call) (handle : TileType → Nat) (calls : List Tile)
    (hq : s.Tiles_ = []) (hc : ∀ t, s.TileTextures_.lookup t = some (handle t)) :
    ∃ w1 issued,
      Render env ⟨calls.foldl (fun s c => DrawTile c.x c.y c.type c.alpha s) s, trace0⟩
        = Result.ok () w1 ∧
      w1.trace = trace0 ++ issued ∧
      ∀ st : GLState,
        (observe st issued).filterMap Event.textureAlpha
          = calls.map (fun c => (handle c.type, [c.alpha, c.alpha, c.alpha, c.alpha]))
            ++ (if s.WinMessage_ = true
                then [(s.WinTexture_, [9 / 10, 9 / 10, 9 / 10, 9 / 10])] else []) ∧
        (observe st issued).count Event.present = 1 ∧
        (observe st issued).getLast? = some Event.present := by
  refine ⟨_, _, Render_ok env h _, rfl, fun st => ?_⟩
  rw [observe_frameCalls, foldl_DrawTile]
  simp only [frameEvents, hq, List.nil_append]
  have hmap := filterMap_tileQuads (fun t => (mapIndex t s.TileTextures_).1) calls
  have hcount := count_present_tileQuads (fun t => (mapIndex t s.TileTextures_).1) calls
  have hh : (fun c : Tile => ((mapIndex c.type s.TileTextures_).1,
        [c.alpha, c.alpha, c.alpha, c.alpha]))
      = (fun c : Tile => (handle c.type, [c.alpha, c.alpha, c.alpha, c.alpha])) := by
    funext c
    rw [mapIndex_of_lookup _ _ _ (hc c.type)]
  rw [hh] at hmap
  refine ⟨?_, ?_, ?_⟩
  · by_cases hw : s.WinMessage_ = true
    · simp [hw, Event.textureAlpha, List.filterMap_append, hmap, winQuad, frameVertex]
    · simp [hw, Event.textureAlpha, List.filterMap_append, hmap]
  · by_cases hw : s.WinMessage_ = true
    · simp [hw, List.count_cons, List.count_append, hcount, winQuad]
    · simp [hw, List.count_cons, List.count_append, hcount]
  · simp [List.getLast?_cons, List.getLast?_append]

/-- C2, instance (the scenario of the claim): on the object construction
produces, tile (0,0) `kTile_2` alpha 1 then tile (3,3) `kTile_2048` alpha 1/2:
two quads, on the distinct handles 1 and 11, in that order, then one present. -/
theorem Render_draws_queue_in_order_witness :
    NoFaults okEnv ∧ okImpl.Tiles_ = [] ∧
    (∀ t, okImpl.TileTextures_.lookup t = some (okHandle t)) ∧
    ∃ w1 issued,
      Render okEnv ⟨DrawTile 3 3 TileType.kTile_2048 (1 / 2)
          (DrawTile 0 0 TileType.kTile_2 1 okImpl), []⟩ = Result.ok () w1 ∧
      w1.trace = [] ++ issued ∧
      ∀ st : GLState,
        (observe st issued).filterMap Event.textureAlpha
          = [(1, [1, 1, 1, 1]), (11, [1 / 2, 1 / 2, 1 / 2, 1 / 2])] ∧
        (observe st issued).count Event.present = 1 ∧
        (observe st issued).getLast? = some Event.present := by
  have hc : ∀ t, okImpl.TileTextures_.lookup t = some (okHandle t) := by
    intro t
    cases t <;> rfl
  refine ⟨okEnv_noFaults, rfl, hc, ?_⟩
  obtain ⟨w1, issued, h1, h2, h3⟩ :=
    Render_draws_queue_in_order okEnv okEnv_noFaults okImpl [] okHandle
      [⟨0, 0, TileType.kTile_2, 1⟩, ⟨3, 3, TileType.kTile_2048, 1 / 2⟩] rfl hc
  refine ⟨w1, issued, h1, h2, fun st => ?_⟩
  simpa [okHandle, okImpl] using h3 st

theorem construct_okEnv_exists :
    ∃ env trace, construct env = Constructed.object okImpl trace :=
  ⟨okEnv, _, rfl⟩

/-! ## Frames with an arbitrary backend -/

theorem bind_ok_iff {α β : Type} (m : M α) (k : α → M β) (w : World) (b : β) (w2 : World) :
    (m >>= k) w = Result.ok b w2 ↔ ∃ a w1, m w = Result.ok a w1 ∧ k a w1 = Result.ok b w2 := by
  rw [bind_run]
  cases h : m w with
  | ok a w1 =>
    constructor
    · intro hk
      exact ⟨a, w1, rfl, hk⟩
    · rintro ⟨a1, w3, h1, hk⟩
      cases h1
      exact hk
  | fail f w1 => simp

theorem ensures_bind {α β : Type} (m : M α) (k : α → M β) (Q : World → Prop)
    (hk : ∀ a, Ensures (k a) Q) : Ensures (m >>= k) Q := by
  intro w b w2 h
  obtain ⟨a, w1, -, h2⟩ := (bind_ok_iff m k w b w2).1 h
  exact hk a w1 b w2 h2

theorem keeps_pure {α : Type} (a : α) : Keeps (pure a : M α) := fun _ => rfl

theorem keeps_throw {α : Type} (what : String) : Keeps (throwRuntimeError what : M α) :=
  fun _ => rfl

theorem keeps_getImpl : Keeps getImpl := fun _ => rfl

theorem keeps_gl (env : Env) (c : Call) : Keeps (gl env c) := by
  intro w
  unfold gl
  split_ifs <;> rfl

theorem keeps_modifyImpl (f : Impl → Impl) (h : ∀ s, (f s).frame = s.frame) :
    Keeps (modifyImpl f) := fun w => h w.impl

theorem keeps_bind {α β : Type} (m : M α) (k : α → M β) (hm : Keeps m) (hk : ∀ a, Keeps (k a)) :
    Keeps (m >>= k) := by
  intro w
  have h1 := hm w
  rw [bind_run]
  cases h : m w with
  | ok a w1 =>
    rw [h] at h1
    have h2 := hk a w1
    simp only at h1 ⊢
    cases h3 : k a w1 with
    | ok b w2 => rw [h3] at h2; exact h2.trans h1
    | fail f w2 => rw [h3] at h2; exact h2.trans h1
  | fail f w1 =>
    rw [h] at h1
    exact h1

theorem keeps_ite {α : Type} (c : Prop) [Decidable c] (a b : M α) (ha : Keeps a) (hb : Keeps b) :
    Keeps (if c then a else b) := by
  split_ifs
  · exact ha
  · exact hb

theorem keepsOnFail_bind {α β : Type} (m : M α) (k : α → M β) (hm : Keeps m)
    (hk : ∀ a, KeepsOnFail (k a)) : KeepsOnFail (m >>= k) := by
  intro w
  have h1 := hm w
  rw [bind_run]
  cases h : m w with
  | ok a w1 =>
    rw [h] at h1
    have h2 := hk a w1
    simp only at h1 ⊢
    cases h3 : k a w1 with
    | ok b w2 => trivial
    | fail f w2 => rw [h3] at h2; exact h2.trans h1
  | fail f w1 =>
    rw [h] at h1
    exact h1

theorem keeps_renderTile (env : Env) (tile : Tile) : Keeps (renderTile env tile) := by
  unfold renderTile
  refine keeps_bind _ _ keeps_getImpl (fun s => ?_)
  refine keeps_bind _ _ (keeps_modifyImpl _ (fun _ => rfl)) (fun _ => ?_)
  repeat (first | exact keeps_gl _ _ | refine keeps_bind _ _ (keeps_gl _ _) (fun _ => ?_))

theorem keeps_renderTiles (env : Env) (tiles : List Tile) : Keeps (renderTiles env tiles) := by
  induction tiles with
  | nil => exact keeps_pure _
  | cons t ts ih => exact keeps_bind _ _ (keeps_renderTile env t) (fun _ => ih)

theorem keeps_renderWin (env : Env) : Keeps (renderWin env) := by
  unfold renderWin
  refine keeps_bind _ _ keeps_getImpl (fun s => ?_)
  refine keeps_ite _ _ _ ?_ (keeps_pure _)
  repeat (first | exact keeps_gl _ _ | refine keeps_bind _ _ (keeps_gl _ _) (fun _ => ?_))

theorem keepsOnFail_Render (env : Env) : KeepsOnFail (Render env) := by
  unfold Render
  refine keepsOnFail_bind _ _ keeps_getImpl (fun s => ?_)
  repeat refine keepsOnFail_bind _ _ (keeps_gl _ _) (fun _ => ?_)
  refine keepsOnFail_bind _ _ (keeps_renderTiles _ _) (fun _ => ?_)
  refine keepsOnFail_bind _ _ (keeps_renderWin _) (fun _ => ?_)
  refine keepsOnFail_bind _ _ (keeps_gl _ _) (fun _ => ?_)
  intro w
  trivial

theorem Render_ok_frame (env : Env) (w w1 : World) (h : Render env w = Result.ok () w1) :
    w1.impl.Tiles_ = [] ∧ w1.impl.WinMessage_ = false := by
  have key : Ensures (Render env) (fun w1 => w1.impl.Tiles_ = [] ∧ w1.impl.WinMessage_ = false) := by
    unfold Render
    iterate 13 refine ensures_bind _ _ _ (fun _ => ?_)
    intro w0 a w2 h0
    cases h0
    exact ⟨rfl, rfl⟩
  exact key w () w1 h

/-! ## Construction with an arbitrary backend -/

theorem pure_bind_run {α β : Type} (a : α) (k : α → M β) (w : World) :
    ((pure a : M α) >>= k) w = k a w := rfl

theorem gl_ok_iff (env : Env) (c : Call) (w : World) (a : Unit) (w1 : World) :
    gl env c w = Result.ok a w1 ↔
      env.faults w.trace c = false ∧ w1 = { w with trace := w.trace ++ [c] } := by
  unfold gl
  by_cases h : env.faults w.trace c = true
  · simp [h]
  · simp [h]
    exact eq_comm

theorem LoadTexture_ok_inv (env : Env) (p : String) (w : World) (a : Nat) (w1 : World)
    (h : LoadTexture env p w = Result.ok a w1) :
    (env.decode p).error = 0 ∧ a = w.impl.NextTextureIndex_ ∧
      w1.impl = { w.impl with NextTextureIndex_ := (w.impl.NextTextureIndex_ + 1) % 2 ^ 32 } := by
  unfold LoadTexture at h
  by_cases he : (env.decode p).error = 0
  · simp only [he, ne_eq, not_true_eq_false, if_false, pure_bind_run, getImpl_bind,
      modifyImpl_bind, bind_ok_iff, gl_ok_iff] at h
    obtain ⟨_, _, ⟨-, rfl⟩, _, _, ⟨-, rfl⟩, _, _, ⟨-, rfl⟩, _, _, ⟨-, rfl⟩, h⟩ := h
    simp only [pure_run, Result.ok.injEq] at h
    obtain ⟨rfl, rfl⟩ := h
    exact ⟨he, rfl, rfl⟩
  · simp [he] at h

theorem loadTile_ok_inv (env : Env) (t : TileType) (p : String) (w : World) (a : Unit)
    (w1 : World) (h : loadTile env t p w = Result.ok a w1) :
    (env.decode p).error = 0 ∧
      w1.impl = { w.impl with
        NextTextureIndex_ := (w.impl.NextTextureIndex_ + 1) % 2 ^ 32,
        TileTextures_ := mapAssign t w.impl.NextTextureIndex_ w.impl.TileTextures_ } := by
  unfold loadTile at h
  obtain ⟨v, w2, h1, h2⟩ := (bind_ok_iff _ _ _ _ _).1 h
  obtain ⟨he, rfl, hw⟩ := LoadTexture_ok_inv env p w v w2 h1
  simp only [modifyImpl_run, Result.ok.injEq, true_and] at h2
  subst h2
  refine ⟨he, ?_⟩
  simp [hw]

theorem InitTextures_ok_inv (env : Env) (w w1 : World)
    (h : InitTextures env w = Result.ok () w1) :
    (∀ p ∈ assetPaths, (env.decode p).error = 0) ∧
    ∃ v0 v1 v2 v3 v4 v5 v6 v7 v8 v9 v10 v11 v12 v13 : Nat,
      v0 = w.impl.NextTextureIndex_ ∧
      v1 = (v0 + 1) % 2 ^ 32 ∧ v2 = (v1 + 1) % 2 ^ 32 ∧ v3 = (v2 + 1) % 2 ^ 32 ∧
      v4 = (v3 + 1) % 2 ^ 32 ∧ v5 = (v4 + 1) % 2 ^ 32 ∧ v6 = (v5 + 1) % 2 ^ 32 ∧
      v7 = (v6 + 1) % 2 ^ 32 ∧ v8 = (v7 + 1) % 2 ^ 32 ∧ v9 = (v8 + 1) % 2 ^ 32 ∧
      v10 = (v9 + 1) % 2 ^ 32 ∧ v11 = (v10 + 1) % 2 ^ 32 ∧ v12 = (v11 + 1) % 2 ^ 32 ∧
      v13 = (v12 + 1) % 2 ^ 32 ∧
      w1.impl = { w.impl with
        NextTextureIndex_ := v13,
        WinTexture_ := v12,
        TileTextures_ :=
          mapAssign TileType.kTile_2048 v11 (mapAssign TileType.kTile_1024 v10
          (mapAssign TileType.kTile_512 v9 (mapAssign TileType.kTile_256 v8
          (mapAssign TileType.kTile_128 v7 (mapAssign TileType.kTile_64 v6
          (mapAssign TileType.kTile_32 v5 (mapAssign TileType.kTile_16 v4
          (mapAssign TileType.kTile_8 v3 (mapAssign TileType.kTile_4 v2
          (mapAssign TileType.kTile_2 v1 (mapAssign TileType.kkTile_1 v0
            w.impl.TileTextures_))))))))))) } := by
  unfold InitTextures at h
  obtain ⟨_, u1, h1, h⟩ := (bind_ok_iff _ _ _ _ _).1 h
  obtain ⟨_, u2, h2, h⟩ := (bind_ok_iff _ _ _ _ _).1 h
  obtain ⟨_, u3, h3, h⟩ := (bind_ok_iff _ _ _ _ _).1 h
  obtain ⟨_, u4, h4, h⟩ := (bind_ok_iff _ _ _ _ _).1 h
  obtain ⟨_, u5, h5, h⟩ := (bind_ok_iff _ _ _ _ _).1 h
  obtain ⟨_, u6, h6, h⟩ := (bind_ok_iff _ _ _ _ _).1 h
  obtain ⟨_, u7, h7, h⟩ := (bind_ok_iff _ _ _ _ _).1 h
  obtain ⟨_, u8, h8, h⟩ := (bind_ok_iff _ _ _ _ _).1 h
  obtain ⟨_, u9, h9, h⟩ := (bind_ok_iff _ _ _ _ _).1 h
  obtain ⟨_, u10, h10, h⟩ := (bind_ok_iff _ _ _ _ _).1 h
  obtain ⟨_, u11, h11, h⟩ := (bind_ok_iff _ _ _ _ _).1 h
  obtain ⟨_, u12, h12, h⟩ := (bind_ok_iff _ _ _ _ _).1 h
  obtain ⟨v, u13, h13, h⟩ := (bind_ok_iff _ _ _ _ _).1 h
  obtain ⟨e1, k1⟩ := loadTile_ok_inv _ _ _ _ _ _ h1
  obtain ⟨e2, k2⟩ := loadTile_ok_inv _ _ _ _ _ _ h2
  obtain ⟨e3, k3⟩ := loadTile_ok_inv _ _ _ _ _ _ h3
  obtain ⟨e4, k4⟩ := loadTile_ok_inv _ _ _ _ _ _ h4
  obtain ⟨e5, k5⟩ := loadTile_ok_inv _ _ _ _ _ _ h5
  obtain ⟨e6, k6⟩ := loadTile_ok_inv _ _ _ _ _ _ h6
  obtain ⟨e7, k7⟩ := loadTile_ok_inv _ _ _ _ _ _ h7
  obtain ⟨e8, k8⟩ := loadTile_ok_inv _ _ _ _ _ _ h8
  obtain ⟨e9, k9⟩ := loadTile_ok_inv _ _ _ _ _ _ h9
  obtain ⟨e10, k10⟩ := loadTile_ok_inv _ _ _ _ _ _ h10
  obtain ⟨e11, k11⟩ := loadTile_ok_inv _ _ _ _ _ _ h11
  obtain ⟨e12, k12⟩ := loadTile_ok_inv _ _ _ _ _ _ h12
  obtain ⟨e13, rfl, k13⟩ := LoadTexture_ok_inv _ _ _ _ _ h13
  simp only [modifyImpl_run, Result.ok.injEq, true_and] at h
  subst h
  refine ⟨?_, ?_⟩
  · intro p hp
    simp only [assetPaths, List.mem_cons, List.mem_singleton, List.not_mem_nil, or_false] at hp
    rcases hp with rfl | rfl | rfl | rfl | rfl | rfl | rfl | rfl | rfl | rfl | rfl | rfl | rfl <;>
      assumption
  · refine ⟨_, _, _, _, _, _, _, _, _, _, _, _, _, _, rfl, rfl, rfl, rfl, rfl, rfl, rfl, rfl, rfl,
      rfl, rfl, rfl, rfl, rfl, ?_⟩
    simp only [k13, k12, k11, k10, k9, k8, k7, k6, k5, k4, k3, k2, k1]

theorem lookup_mapAssign (k k1 : TileType) (v : Nat) (m : List (TileType × Nat)) :
    (mapAssign k v m).lookup k1 = if k1 = k then some v else m.lookup k1 := by
  induction m with
  | nil =>
    by_cases h : k1 = k
    · subst h; simp [mapAssign]
    · have hb : (k1 == k) = false := by simpa using h
      simp [mapAssign, List.lookup, hb, h]
  | cons e rest ih =>
    obtain ⟨k2, v2⟩ := e
    unfold mapAssign
    by_cases h2 : k2 = k
    · subst h2
      by_cases h : k1 = k2
      · subst h; simp
      · have hb : (k1 == k2) = false := by simpa using h
        simp [List.lookup, hb, h]
    · simp only [h2, if_false]
      by_cases h : k1 = k2
      · subst h
        simp [h2]
      · have hb : (k1 == k2) = false := by simpa using h
        simp only [List.lookup, hb, ih]

theorem handleFrom_injective (n i j : Nat) (hi : i < 13) (hj : j < 13)
    (h : handleFrom n i = handleFrom n j) : i = j := by
  unfold handleFrom at h
  split_ifs at h <;> omega

theorem InitTextures_lookup (env : Env) (w w1 : World)
    (h : InitTextures env w = Result.ok () w1) :
    (∀ t, w1.impl.TileTextures_.lookup t
        = some (handleFrom w.impl.NextTextureIndex_ t.index)) ∧
      w1.impl.WinTexture_ = handleFrom w.impl.NextTextureIndex_ 12 := by
  obtain ⟨-, v0, v1, v2, v3, v4, v5, v6, v7, v8, v9, v10, v11, v12, v13, h0, h1, h2, h3, h4, h5,
    h6, h7, h8, h9, h10, h11, h12, -, hw⟩ := InitTextures_ok_inv env w w1 h
  rw [hw, ← h0]
  refine ⟨fun t => ?_, ?_⟩
  · cases t <;> simp [lookup_mapAssign, handleFrom, TileType.index] <;> omega
  · simp [handleFrom]
    omega

theorem construct_object_inv (env : Env) (s : Impl) (trace : List Call)
    (h : construct env = Constructed.object s trace) :
    ∃ w0 : World, InitTextures env w0 = Result.ok () ⟨s, trace⟩ := by
  unfold construct at h
  cases hc : Impl.ctorBody env { impl := Impl.initial, trace := [] } with
  | ok a w1 =>
    rw [hc] at h
    simp only [Constructed.object.injEq] at h
    obtain ⟨rfl, rfl⟩ := h
    unfold Impl.ctorBody at hc
    obtain ⟨_, u1, -, hc⟩ := (bind_ok_iff _ _ _ _ _).1 hc
    obtain ⟨_, u2, -, hc⟩ := (bind_ok_iff _ _ _ _ _).1 hc
    exact ⟨u2, hc⟩
  | fail f w1 =>
    rw [hc] at h
    simp at h

theorem keeps_InitWindow (env : Env) : Keeps (InitWindow env) := by
  unfold InitWindow
  repeat (first
    | exact keeps_gl _ _
    | exact keeps_throw _
    | exact keeps_pure _
    | exact keeps_modifyImpl _ (fun _ => rfl)
    | refine keeps_ite _ _ _ ?_ ?_
    | refine keeps_bind _ _ ?_ (fun _ => ?_))

theorem keeps_InitOpenGL (env : Env) : Keeps (InitOpenGL env) := by
  unfold InitOpenGL
  repeat (first
    | exact keeps_gl _ _
    | exact keeps_pure _
    | refine keeps_ite _ _ _ ?_ ?_
    | refine keeps_bind _ _ ?_ (fun _ => ?_))

theorem keeps_LoadTexture (env : Env) (p : String) : Keeps (LoadTexture env p) := by
  unfold LoadTexture
  repeat (first
    | exact keeps_gl _ _
    | exact keeps_throw _
    | exact keeps_pure _
    | exact keeps_getImpl
    | exact keeps_modifyImpl _ (fun _ => rfl)
    | refine keeps_ite _ _ _ ?_ ?_
    | refine keeps_bind _ _ ?_ (fun _ => ?_))

theorem keeps_loadTile (env : Env) (t : TileType) (p : String) : Keeps (loadTile env t p) :=
  keeps_bind _ _ (keeps_LoadTexture env p) (fun _ => keeps_modifyImpl _ (fun _ => rfl))

theorem keeps_InitTextures (env : Env) : Keeps (InitTextures env) := by
  unfold InitTextures
  repeat (first
    | exact keeps_loadTile _ _ _
    | exact keeps_LoadTexture _ _
    | exact keeps_modifyImpl _ (fun _ => rfl)
    | refine keeps_bind _ _ ?_ (fun _ => ?_))

theorem construct_object_frame (env : Env) (s : Impl) (trace : List Call)
    (h : construct env = Constructed.object s trace) :
    s.Tiles_ = [] ∧ s.WinMessage_ = false := by
  have hk : Keeps (Impl.ctorBody env) :=
    keeps_bind _ _ (keeps_InitWindow env)
      (fun _ => keeps_bind _ _ (keeps_InitOpenGL env) (fun _ => keeps_InitTextures env))
  have h0 := hk { impl := Impl.initial, trace := [] }
  unfold construct at h
  cases hc : Impl.ctorBody env { impl := Impl.initial, trace := [] } with
  | ok a w1 =>
    rw [hc] at h h0
    simp only [Constructed.object.injEq] at h
    obtain ⟨rfl, rfl⟩ := h
    simp only [Impl.frame, Impl.initial, Prod.mk.injEq] at h0
    exact h0
  | fail f w1 =>
    rw [hc] at h
    simp at h

theorem fresh_frame (s : Impl) (h : Fresh s) : s.Tiles_ = [] ∧ s.WinMessage_ = false := by
  rcases h with ⟨env, trace, h⟩ | ⟨env, w, trace, h⟩
  · exact construct_object_frame env s trace h
  · exact Render_ok_frame env w _ h

theorem tileQuad_eq (texture : Nat) (tile : Tile) :
    tileQuad texture tile = Event.quad texture
      [unitSquareVertex tile 0 1, unitSquareVertex tile 0 0,
       unitSquareVertex tile 1 0, unitSquareVertex tile 1 1] := by
  simp only [tileQuad, frameVertex, unitSquareVertex, Affine.ortho, Affine.app]
  norm_num
  refine ⟨⟨?_, ?_, ?_⟩, ⟨?_, ?_⟩, ⟨?_, ?_, ?_⟩, ⟨?_, ?_⟩, ?_, ?_⟩ <;> ring

/-! ## The claims about construction -/

/-- C3: whenever `InitTextures` returns (from any object state, with any
backend), the map has an entry for every one of the 12 tile types, two
different tile types have different handles, and no tile handle equals the
win-banner handle `WinTexture_`. -/
theorem InitTextures_handles_distinct (env : Env) (w w1 : World)
    (h : InitTextures env w = Result.ok () w1) :
    (∀ t : TileType, ∃ v, w1.impl.TileTextures_.lookup t = some v) ∧
    (∀ (t1 t2 : TileType) (v : Nat), w1.impl.TileTextures_.lookup t1 = some v →
        w1.impl.TileTextures_.lookup t2 = some v → t1 = t2) ∧
    (∀ t : TileType, w1.impl.TileTextures_.lookup t ≠ some w1.impl.WinTexture_) := by
  obtain ⟨hl, hw⟩ := InitTextures_lookup env w w1 h
  have hidx : ∀ t : TileType, t.index < 12 := by
    intro t
    cases t <;> decide
  have hinj : ∀ t1 t2 : TileType, t1.index = t2.index → t1 = t2 := by
    intro t1 t2
    cases t1 <;> cases t2 <;> simp [TileType.index]
  refine ⟨fun t => ⟨_, hl t⟩, ?_, ?_⟩
  · intro t1 t2 v h1 h2
    rw [hl t1] at h1
    rw [hl t2] at h2
    have h3 : handleFrom w.impl.NextTextureIndex_ t1.index
        = handleFrom w.impl.NextTextureIndex_ t2.index := by
      rw [Option.some.inj h1, Option.some.inj h2]
    have hi := hidx t1
    have hj := hidx t2
    exact hinj t1 t2 (handleFrom_injective _ _ _ (by omega) (by omega) h3)
  · intro t ht
    rw [hl t, hw] at ht
    have hi := hidx t
    have := handleFrom_injective _ _ _ (by omega) (by omega) (Option.some.inj ht)
    omega

/-- C3, instance: the load of the constructor in the all-succeeding environment. -/
theorem InitTextures_handles_distinct_witness :
    ∃ w1 : World, InitTextures okEnv ⟨Impl.initial, []⟩ = Result.ok () w1 ∧
      ((∀ t : TileType, ∃ v, w1.impl.TileTextures_.lookup t = some v) ∧
       (∀ (t1 t2 : TileType) (v : Nat), w1.impl.TileTextures_.lookup t1 = some v →
          w1.impl.TileTextures_.lookup t2 = some v → t1 = t2) ∧
       (∀ t : TileType, w1.impl.TileTextures_.lookup t ≠ some w1.impl.WinTexture_)) :=
  ⟨_, rfl, InitTextures_handles_distinct okEnv ⟨Impl.initial, []⟩ _ rfl⟩

/-- C4: for every outcome of the decoder (and of the rest of the backend), if
decoding fails for at least one of the 13 asset paths then `new Impl()` ends in
an exception and hands no object to the caller; and if it hands over an
object, every one of the 13 decodes succeeded. -/
theorem construct_fails_unless_all_decode (env : Env) :
    ((∃ p ∈ assetPaths, (env.decode p).error ≠ 0) →
        ∃ f trace, construct env = Constructed.exception f trace) ∧
    (∀ s trace, construct env = Constructed.object s trace →
        ∀ p ∈ assetPaths, (env.decode p).error = 0) := by
  have hall : ∀ s trace, construct env = Constructed.object s trace →
      ∀ p ∈ assetPaths, (env.decode p).error = 0 := by
    intro s trace h
    obtain ⟨w0, h0⟩ := construct_object_inv env s trace h
    exact (InitTextures_ok_inv env w0 _ h0).1
  refine ⟨?_, hall⟩
  rintro ⟨p, hp, hne⟩
  cases hc : construct env with
  | object s trace => exact absurd (hall s trace hc p hp) hne
  | exception f trace => exact ⟨f, trace, rfl⟩

/-- C4, instance: with `data/2048.png` missing and the other 12 images valid
the construction ends in the lodepng exception; in the all-succeeding
environment it hands over an object and all 13 decodes succeeded. -/
theorem construct_fails_unless_all_decode_witness :
    ((∃ p ∈ assetPaths, (missingEnv.decode p).error ≠ 0) ∧
      ∃ f trace, construct missingEnv = Constructed.exception f trace) ∧
    (∃ s trace, construct okEnv = Constructed.object s trace ∧
      ∀ p ∈ assetPaths, (okEnv.decode p).error = 0) :=
  ⟨⟨⟨"data/2048.png", by decide, by decide⟩,
      (construct_fails_unless_all_decode missingEnv).1 ⟨"data/2048.png", by decide, by decide⟩⟩,
    ⟨okImpl, _, rfl, (construct_fails_unless_all_decode okEnv).2 okImpl _ rfl⟩⟩

/-- C5: `DrawWinMessage` is idempotent, `DrawWinMessage (DrawWinMessage s) =
DrawWinMessage s` for every object state `s`; a second call later in the same
frame, after any further requests, changes nothing either; so the following
`Render` has the same result, and issues the same backend calls, whether
`DrawWinMessage` was called once or twice (with any backend). -/
theorem DrawWinMessage_idempotent (s : Impl) :
    DrawWinMessage (DrawWinMessage s) = DrawWinMessage s ∧
    (∀ reqs : List Request,
      DrawWinMessage (applyRequests reqs (DrawWinMessage s))
        = applyRequests reqs (DrawWinMessage s)) ∧
    (∀ (env : Env) (trace : List Call),
      Render env ⟨DrawWinMessage (DrawWinMessage s), trace⟩
        = Render env ⟨DrawWinMessage s, trace⟩) ∧
    (∀ (env : Env) (trace : List Call) (reqs : List Request),
      Render env ⟨DrawWinMessage (applyRequests reqs (DrawWinMessage s)), trace⟩
        = Render env ⟨applyRequests reqs (DrawWinMessage s), trace⟩) := by
  have h1 : DrawWinMessage (DrawWinMessage s) = DrawWinMessage s := rfl
  have h2 : ∀ reqs : List Request,
      DrawWinMessage (applyRequests reqs (DrawWinMessage s))
        = applyRequests reqs (DrawWinMessage s) := by
    intro reqs
    apply DrawWinMessage_of_flag
    rw [(applyRequests_fields reqs (DrawWinMessage s)).2.1]
    simp [DrawWinMessage]
  refine ⟨h1, h2, ?_, ?_⟩
  · intro env trace
    rw [h1]
  · intro env trace reqs
    rw [h2]

/-! ## The claims about what a frame shows -/

/-- C9: for every object state and a backend that does not fault, `Render`
returns and, right after the clear, the backend draws for every queued tile, in
queue order, one quad whose four vertices are `(col - 1/2 + u, row - 1/2 + v)`
with texture coordinate `(u, v)` for `(u, v)` = (0,1), (0,0), (1,0), (1,1),
where `row = tile.x` and `col = tile.y`. Under the projection
`glOrtho(-0.5, 3.5, 3.5, -0.5)` the vertical coordinate -1/2 is the top edge of
the viewport (y = 1), 7/2 the bottom edge, horizontal -1/2 the left edge and
7/2 the right edge, and a smaller vertical coordinate is drawn strictly
higher: a tile in row 0 touches the top and a tile with a smaller row is above
one with a larger row. -/
theorem Render_tile_geometry (env : Env) (h : NoFaults env) (w : World) (st : GLState) :
    ∃ w1 issued rest,
      Render env w = Result.ok () w1 ∧ w1.trace = w.trace ++ issued ∧
      observe st issued = Event.clear st.clearColor ::
        w.impl.Tiles_.map (fun tile =>
          Event.quad (mapIndex tile.type w.impl.TileTextures_).1
            [unitSquareVertex tile 0 1, unitSquareVertex tile 0 0,
             unitSquareVertex tile 1 0, unitSquareVertex tile 1 1]) ++ rest ∧
      (∀ (tile : Tile) (u : ℚ), tile.x = 0 → (unitSquareVertex tile u 0).ndc.2 = 1) ∧
      (∀ (a b : Tile) (u v : ℚ), a.x < b.x →
        (unitSquareVertex b u v).ndc.2 < (unitSquareVertex a u v).ndc.2) ∧
      (∀ x : ℚ, ((Affine.ortho (-1 / 2) (7 / 2) (7 / 2) (-1 / 2)).app (x, -1 / 2)).2 = 1) ∧
      (∀ x : ℚ, ((Affine.ortho (-1 / 2) (7 / 2) (7 / 2) (-1 / 2)).app (x, 7 / 2)).2 = -1) ∧
      (∀ y : ℚ, ((Affine.ortho (-1 / 2) (7 / 2) (7 / 2) (-1 / 2)).app (-1 / 2, y)).1 = -1) ∧
      (∀ y : ℚ, ((Affine.ortho (-1 / 2) (7 / 2) (7 / 2) (-1 / 2)).app (7 / 2, y)).1 = 1) := by
  refine ⟨_, _, (if w.impl.WinMessage_ = true then [winQuad w.impl.WinTexture_] else [])
    ++ [Event.present], Render_ok env h w, rfl, ?_, ?_, ?_, ?_, ?_, ?_, ?_⟩
  · rw [observe_frameCalls]
    simp only [frameEvents, tileQuad_eq, List.cons_append, List.append_assoc]
  · intro tile u hx
    simp only [unitSquareVertex, Affine.ortho, Affine.app, hx]
    norm_num
  · intro a b u v hab
    simp only [unitSquareVertex, Affine.ortho, Affine.app]
    norm_num
    linarith
  · intro x; simp only [Affine.ortho, Affine.app]; norm_num
  · intro x; simp only [Affine.ortho, Affine.app]; norm_num
  · intro y; simp only [Affine.ortho, Affine.app]; norm_num
  · intro y; simp only [Affine.ortho, Affine.app]; norm_num

/-- C9, instance: a tile in row 0 and a tile in row 3 queued. -/
theorem Render_tile_geometry_witness :
    NoFaults okEnv ∧
    ∃ w1 issued rest,
      Render okEnv ⟨busyImpl, []⟩ = Result.ok () w1 ∧ w1.trace = [] ++ issued ∧
      observe GLState.fresh issued = Event.clear GLState.fresh.clearColor ::
        busyImpl.Tiles_.map (fun tile =>
          Event.quad (mapIndex tile.type busyImpl.TileTextures_).1
            [unitSquareVertex tile 0 1, unitSquareVertex tile 0 0,
             unitSquareVertex tile 1 0, unitSquareVertex tile 1 1]) ++ rest ∧
      (∀ (tile : Tile) (u : ℚ), tile.x = 0 → (unitSquareVertex tile u 0).ndc.2 = 1) ∧
      (∀ (a b : Tile) (u v : ℚ), a.x < b.x →
        (unitSquareVertex b u v).ndc.2 < (unitSquareVertex a u v).ndc.2) ∧
      (∀ x : ℚ, ((Affine.ortho (-1 / 2) (7 / 2) (7 / 2) (-1 / 2)).app (x, -1 / 2)).2 = 1) ∧
      (∀ x : ℚ, ((Affine.ortho (-1 / 2) (7 / 2) (7 / 2) (-1 / 2)).app (x, 7 / 2)).2 = -1) ∧
      (∀ y : ℚ, ((Affine.ortho (-1 / 2) (7 / 2) (7 / 2) (-1 / 2)).app (-1 / 2, y)).1 = -1) ∧
      (∀ y : ℚ, ((Affine.ortho (-1 / 2) (7 / 2) (7 / 2) (-1 / 2)).app (7 / 2, y)).1 = 1) :=
  ⟨okEnv_noFaults, Render_tile_geometry okEnv okEnv_noFaults ⟨busyImpl, []⟩ GLState.fresh⟩

/-- C10: on an object as construction or the previous `Render` left it, after
any sequence of `DrawTile` and `DrawWinMessage` calls, a fault-free `Render`
returns and the backend shows: the clear, one quad per queued tile, then the
win banner if and only if `DrawWinMessage` is among the calls, then the
present. The banner is one quad with the texture `WinTexture_` bound, its
vertices the corners (-1/2, 7/2), (-1/2, -1/2), (7/2, -1/2), (7/2, 7/2) of the
logical window, which are the four corners of the viewport, and every vertex
has the colour (1, 1, 1, 9/10) whatever the calls were. -/
theorem Render_win_banner (env : Env) (h : NoFaults env) (s : Impl) (trace0 : List Call)
    (reqs : List Request) (st : GLState) (hs : Fresh s) :
    ∃ w1 issued,
      Render env ⟨applyRequests reqs s, trace0⟩ = Result.ok () w1 ∧
      w1.trace = trace0 ++ issued ∧
      observe st issued = Event.clear st.clearColor ::
        (reqs.filterMap Request.toTile).map
          (fun tile => tileQuad (mapIndex tile.type s.TileTextures_).1 tile)
        ++ (if Request.win ∈ reqs then
              [Event.quad s.WinTexture_
                [{ pos := (-1 / 2, 7 / 2), tex := (0, 1), color := ⟨1, 1, 1, 9 / 10⟩,
                   ndc := (-1, -1) },
                 { pos := (-1 / 2, -1 / 2), tex := (0, 0), color := ⟨1, 1, 1, 9 / 10⟩,
                   ndc := (-1, 1) },
                 { pos := (7 / 2, -1 / 2), tex := (1, 0), color := ⟨1, 1, 1, 9 / 10⟩,
                   ndc := (1, 1) },
                 { pos := (7 / 2, 7 / 2), tex := (1, 1), color := ⟨1, 1, 1, 9 / 10⟩,
                   ndc := (1, -1) }]]
            else [])
        ++ [Event.present] := by
  obtain ⟨hq, hf⟩ := fresh_frame s hs
  obtain ⟨h1, h2, h3, h4, -⟩ := applyRequests_fields reqs s
  refine ⟨_, _, Render_ok env h _, rfl, ?_⟩
  rw [observe_frameCalls]
  simp only [frameEvents, h1, h2, h3, h4, hq, hf, List.nil_append, Bool.false_or,
    decide_eq_true_eq]
  by_cases hw : Request.win ∈ reqs
  · simp only [hw, if_true, winQuad, frameVertex]
    norm_num
  · simp only [hw, if_false]

/-- C10, instance: the object construction produces; tile, banner, tile. -/
theorem Render_win_banner_witness :
    NoFaults okEnv ∧ Fresh okImpl ∧
    ∃ w1 issued,
      Render okEnv ⟨applyRequests
          [Request.tile 0 0 TileType.kTile_2 1, Request.win,
           Request.tile 3 3 TileType.kTile_2048 (1 / 2)] okImpl, []⟩ = Result.ok () w1 ∧
      w1.trace = [] ++ issued ∧
      observe GLState.fresh issued = Event.clear GLState.fresh.clearColor ::
        (([Request.tile 0 0 TileType.kTile_2 1, Request.win,
           Request.tile 3 3 TileType.kTile_2048 (1 / 2)] : List Request).filterMap
            Request.toTile).map
          (fun tile => tileQuad (mapIndex tile.type okImpl.TileTextures_).1 tile)
        ++ (if Request.win ∈ ([Request.tile 0 0 TileType.kTile_2 1, Request.win,
              Request.tile 3 3 TileType.kTile_2048 (1 / 2)] : List Request) then
              [Event.quad okImpl.WinTexture_
                [{ pos := (-1 / 2, 7 / 2), tex := (0, 1), color := ⟨1, 1, 1, 9 / 10⟩,
                   ndc := (-1, -1) },
                 { pos := (-1 / 2, -1 / 2), tex := (0, 0), color := ⟨1, 1, 1, 9 / 10⟩,
                   ndc := (-1, 1) },
                 { pos := (7 / 2, -1 / 2), tex := (1, 0), color := ⟨1, 1, 1, 9 / 10⟩,
                   ndc := (1, 1) },
                 { pos := (7 / 2, 7 / 2), tex := (1, 1), color := ⟨1, 1, 1, 9 / 10⟩,
                   ndc := (1, -1) }]]
            else [])
        ++ [Event.present] :=
  ⟨okEnv_noFaults, Or.inl construct_okEnv_exists,
    Render_win_banner okEnv okEnv_noFaults okImpl [] _ GLState.fresh
      (Or.inl construct_okEnv_exists)⟩

theorem construct_okTrace : construct okEnv = Constructed.object okImpl okTrace := rfl

theorem run_silent (calls : List Call) (st : GLState) (h : ∀ c ∈ calls, c.silent = true) :
    (st.run calls).2 = [] ∧ (st.run calls).1.clearColor = st.clearColor := by
  induction calls generalizing st with
  | nil => exact ⟨rfl, rfl⟩
  | cons c cs ih =>
    have hc : c.silent = true := h c (List.mem_cons_self _ _)
    have hstep : (st.step c).2 = [] ∧ (st.step c).1.clearColor = st.clearColor := by
      cases c <;> first
        | exact ⟨rfl, rfl⟩
        | exact Bool.noConfusion hc
        | (refine ⟨rfl, ?_⟩
           simp only [GLState.step]
           split_ifs <;> rfl)
    have ih1 := ih (st.step c).1 (fun d hd => h d (List.mem_cons_of_mem _ hd))
    simp only [GLState.run]
    exact ⟨by rw [hstep.1, ih1.1]; rfl, by rw [ih1.2, hstep.2]⟩

theorem swapFaultEnv_draws : DrawsWithoutFault swapFaultEnv := by
  intro history c hc
  cases c <;> first
    | rfl
    | exact Bool.noConfusion hc

theorem Render_swapFaultEnv_busyImpl :
    Render swapFaultEnv ⟨busyImpl, []⟩
      = Result.fail (Failure.backend_fault (Call.glfwSwapBuffers (some 1)))
          { impl := { busyImpl with
              TileTextures_ := touchAll busyImpl.Tiles_ busyImpl.TileTextures_ },
            trace := [] ++ drawCalls swapFaultEnv busyImpl } :=
  Render_stops_at_present swapFaultEnv swapFaultEnv_draws ⟨busyImpl, []⟩ rfl

/-! ## The claims about failures -/

/-- C6, the code at the failing input: window created, `data/2048.png`
missing. The lodepng exception leaves the constructor after `glfwInit` and
`glfwCreateWindow` have succeeded, and neither `glfwDestroyWindow` nor
`glfwTerminate` has been called: the window and the session are not released.
On the sibling path, where `glfwCreateWindow` fails, the code does call
`glfwTerminate` before it throws; and the destructor, which would release
both, runs only for a completely constructed object. -/
theorem construct_texture_failure_releases_nothing :
    (∃ trace,
      construct missingEnv = Constructed.exception
        (Failure.runtime_error "LODEPNG: failed to open file for reading") trace ∧
      Call.glfwInit ∈ trace ∧
      Call.glfwCreateWindow 700 700 "2048" ∈ trace ∧
      Call.glfwMakeContextCurrent (some 1) ∈ trace ∧
      (∀ window, Call.glfwDestroyWindow window ∉ trace) ∧
      Call.glfwTerminate ∉ trace) ∧
    construct noWindowEnv = Constructed.exception
      (Failure.runtime_error "GLFW: Window creation failed!")
      [Call.glfwInit,
       Call.glfwWindowHint GLenum.GLFW_CONTEXT_VERSION_MAJOR 2,
       Call.glfwWindowHint GLenum.GLFW_CONTEXT_VERSION_MINOR 0,
       Call.glfwWindowHint GLenum.GLFW_SAMPLES 4,
       Call.glfwCreateWindow 700 700 "2048",
       Call.glfwTerminate] ∧
    Impl.dtor okEnv ⟨okImpl, []⟩
      = Result.ok () ⟨okImpl, [Call.glfwDestroyWindow (some 1), Call.glfwTerminate]⟩ := by
  refine ⟨⟨_, rfl, by decide, by decide, by decide, ?_, by decide⟩, rfl, rfl⟩
  intro window hmem
  revert hmem
  simp

/-- C7, counterexample: two tiles queued and the banner flag set, the backend
faults at `glfwSwapBuffers`. `Render` stops there, and the object still holds
both tiles and the set flag: the FrameState is not empty. -/
theorem Render_fault_at_present_not_reset :
    ∃ w1, Render swapFaultEnv ⟨busyImpl, []⟩
        = Result.fail (Failure.backend_fault (Call.glfwSwapBuffers (some 1))) w1 ∧
      w1.impl.Tiles_ = [⟨0, 0, TileType.kTile_2, 1⟩, ⟨3, 3, TileType.kTile_2048, 1 / 2⟩] ∧
      w1.impl.WinMessage_ = true ∧
      ¬ (w1.impl.Tiles_ = [] ∧ w1.impl.WinMessage_ = false) := by
  have hr := Render_swapFaultEnv_busyImpl
  refine ⟨_, hr, rfl, rfl, ?_⟩
  rintro ⟨-, h⟩
  exact absurd h (by decide)

/-- C7, amended: `Render` resets the FrameState only after the present step
has returned. For every object state and every backend, if `Render` stops
with a failure (at the present step or at any earlier backend call) the tile
queue and the win-banner flag are exactly those `Render` was entered with:
nothing is reset, so no partially reset FrameState is observable. -/
theorem Render_fault_keeps_frame (env : Env) (w w1 : World) (f : Failure)
    (h : Render env w = Result.fail f w1) :
    w1.impl.Tiles_ = w.impl.Tiles_ ∧ w1.impl.WinMessage_ = w.impl.WinMessage_ := by
  have hk := keepsOnFail_Render env w
  rw [h] at hk
  simpa [Impl.frame] using hk

/-- C7, amended, instance: the fault at `glfwSwapBuffers` with two tiles
queued and the flag set. -/
theorem Render_fault_keeps_frame_witness :
    ∃ w1, Render swapFaultEnv ⟨busyImpl, []⟩
        = Result.fail (Failure.backend_fault (Call.glfwSwapBuffers (some 1))) w1 ∧
      (w1.impl.Tiles_ = busyImpl.Tiles_ ∧ w1.impl.WinMessage_ = busyImpl.WinMessage_) :=
  ⟨_, Render_swapFaultEnv_busyImpl,
    Render_fault_keeps_frame swapFaultEnv ⟨busyImpl, []⟩ _ _ Render_swapFaultEnv_busyImpl⟩

/-- C8, the code at the failing input: the first two frames of a freshly
constructed renderer on a fresh OpenGL context. `Render` calls `glClear` before
`glClearColor`, and nothing before it sets the clear colour, so the first frame
is cleared with the initial clear colour of the context, (0, 0, 0, 0); only
from the second frame on is the clear colour (1/2, 1, 83/100, 1). -/
theorem first_Render_clears_with_context_default :
    ∃ trace0 w1 w2,
      construct okEnv = Constructed.object okImpl trace0 ∧
      Render okEnv ⟨okImpl, trace0⟩ = Result.ok () w1 ∧
      Render okEnv w1 = Result.ok () w2 ∧
      observe GLState.fresh w1.trace = [Event.clear ⟨0, 0, 0, 0⟩, Event.present] ∧
      observe GLState.fresh w2.trace
        = [Event.clear ⟨0, 0, 0, 0⟩, Event.present,
           Event.clear ⟨1 / 2, 1, 83 / 100, 1⟩, Event.present] := by
  have hs := run_silent okTrace GLState.fresh (by decide)
  have h1 := run_frameCalls okEnv okImpl (GLState.fresh.run okTrace).1
  have h2 := run_frameCalls okEnv okImpl
    ((GLState.fresh.run okTrace).1.run (frameCalls okEnv okImpl)).1
  have he : ∀ c : Color, frameEvents c okImpl = [Event.clear c, Event.present] := fun _ => rfl
  refine ⟨okTrace, _, _, construct_okTrace, Render_ok okEnv okEnv_noFaults _,
    Render_ok okEnv okEnv_noFaults _, ?_, ?_⟩
  · show observe GLState.fresh (okTrace ++ frameCalls okEnv okImpl) = _
    unfold observe
    rw [run_append, hs.1, h1.2, hs.2, he]
    rfl
  · show observe GLState.fresh
      ((okTrace ++ frameCalls okEnv okImpl) ++ frameCalls okEnv okImpl) = _
    unfold observe
    rw [run_append, run_append, hs.1, h1.2, hs.2, h2.2, h1.1.2.2, he, he]
    rfl

end G2048
